/-
  Verification of the message-routing core of a webhook-driven messaging
  bot framework (the `wa_cloud` library exercised by `examples/echo_bot.py`
  and `examples/full_test_bot.py`).

  The repository ships only the example call-sites of the core; the own modules of the core (Message model, Filter, Handler, Application/Dispatcher,
  Webhook Endpoint, Bot API client) are therefore modelled from the spec,
  each such definition marked `Modelled from the spec:`.  The cache-update
  logic of `handle_delete_media_command` and the unguarded text accesses of
  `handle_download_command` / `handle_delete_media_command` are embedded
  directly from `examples/full_test_bot.py`.
-/
import Mathlib

namespace WaCloud

/-! ## Message model -/

/-- Modelled from the spec: §3 Message `type` enum — text, image, video,
audio, document, sticker, location, contacts, interactive, reaction,
unsupported. -/
inductive MessageType where
  | text | image | video | audio | document | sticker
  | location | contacts | interactive | reaction | unsupported
deriving DecidableEq, Repr

/-- Modelled from the spec: §3 — the text payload of a text message. -/
structure TextContent where
  body : String
deriving DecidableEq, Repr

/-- Modelled from the spec: §3 — reaction payload `{emoji-or-empty, target
message id}`; an absent emoji denotes "reaction removed" (§4.1). -/
structure ReactionContent where
  emoji : Option String
  message_id : String
deriving DecidableEq, Repr

/-- Modelled from the spec: §3 — location payload `{lat, lon, name, address}`.
Coordinates are kept abstract as integers; their value is irrelevant to
routing. -/
structure LocationContent where
  latitude : Int
  longitude : Int
  name : Option String
  address : Option String
deriving DecidableEq, Repr

/-- Modelled from the spec: §3 Message — immutable record with identity
metadata, a `type` discriminator, and optional payload fields (the source
models the payload as a single class with many optional fields, §9). -/
structure Message where
  id : String
  chat_id : String
  timestamp : Nat
  type : MessageType
  text : Option TextContent := none
  media_id : Option String := none
  location : Option LocationContent := none
  reaction : Option ReactionContent := none
deriving DecidableEq, Repr

/-! ## Filter -/

/-- First whitespace-delimited token of a string (leading whitespace
skipped), `none` when the string is all whitespace.  Used by the command
filter: spec §4.1 "matches text messages where the first
whitespace-delimited token equals a literal prefixed token". -/
def firstToken (s : String) : Option String :=
  let cs := s.data.dropWhile Char.isWhitespace
  match cs with
  | [] => none
  | _ => some (String.mk (cs.takeWhile fun c => !c.isWhitespace))

/-- Modelled from the spec: §4.1/§9 — Filter as a composite-pattern tagged
variant: leaf tests (catch-all ALL, type test, `Command(name)`,
ANY_COMMAND) and AND / OR / NOT composites (`&`, `|`, `~` in the source
model). -/
inductive Filter where
  | all
  | typeIs (t : MessageType)
  | command (name : String)
  | anyCommand
  | and (f g : Filter)
  | or (f g : Filter)
  | not (f : Filter)
deriving Repr

/-- Modelled from the spec: §4.1 — `evaluate(message) -> bool`, pure and
total.  A command filter matches text messages where the first
whitespace-delimited token of the body is the one-character command marker "/" followed
by the (case-sensitively matched) name; AND/OR short-circuit and NOT
negates; a text-shaped filter on a message without a text payload is
false, never an error. -/
def Filter.evaluate : Filter → Message → Bool
  | .all, _ => true
  | .typeIs t, m => m.type == t
  | .command name, m =>
      m.type == .text &&
        (match m.text with
         | some t => firstToken t.body == some ("/" ++ name)
         | none => false)
  | .anyCommand, m =>
      m.type == .text &&
        (match m.text with
         | some t =>
             (match firstToken t.body with
              | some tok => tok.startsWith "/"
              | none => false)
         | none => false)
  | .and f g, m => f.evaluate m && g.evaluate m
  | .or f g, m => f.evaluate m || g.evaluate m
  | .not f, m => !(f.evaluate m)

/-! ## Handler and Dispatcher -/

/-- Modelled from the spec: §3 Handler — pairs one Filter with one callback
`(Message, Bot) -> Unit-or-Error`.  The callback is embedded as a function
returning `Except String Unit` (a raised exception becomes an `error`
value); the `Bot` argument plays no role in routing and is elided.  The
`name` field identifies which callback was invoked, for observing
dispatch outcomes. -/
structure MessageHandler where
  filter : Filter
  name : String
  run : Message → Except String Unit

/-- The observable outcome of dispatching one message: the callback of which handler ran and whether it raised, or that the message was dropped. -/
inductive DispatchResult where
  | handled (handlerName : String)
  | failed (handlerName : String) (err : String)
  | dropped
deriving DecidableEq, Repr

/-- Modelled from the spec: §4.3 — scan the ordered handler registry for
the first handler whose filter evaluates true on the message. -/
def findHandler (hs : List MessageHandler) (m : Message) : Option MessageHandler :=
  hs.find? fun h => h.filter.evaluate m

/-- The outcome of invoking the callback of one handler: an exception raised
inside the callback is caught at the dispatch boundary and recorded,
never propagated (spec §4.3 failure semantics). -/
def runHandler (h : MessageHandler) (m : Message) : DispatchResult :=
  match h.run m with
  | .ok _ => .handled h.name
  | .error e => .failed h.name e

/-- Modelled from the spec: §4.3 `dispatch(message, bot)` — invoke the
callback of the first matching handler and stop; if no handler matches
the message is silently dropped. -/
def dispatch (hs : List MessageHandler) (m : Message) : DispatchResult :=
  match findHandler hs m with
  | none => .dropped
  | some h => runHandler h m

/-- Modelled from the spec: §4.2 — a batch payload is split into
independent messages, each dispatched independently. -/
def processBatch (hs : List MessageHandler) (msgs : List Message) : List DispatchResult :=
  msgs.map (dispatch hs)

/-! ## Webhook Endpoint: verification, classification, event delivery -/

/-- An HTTP response: status code and body. -/
structure HttpResponse where
  status : Nat
  body : String
deriving DecidableEq, Repr

/-- Modelled from the spec: §4.4/§6 verification handshake — given a mode
token, a challenge value and a caller-supplied verify token, respond `200`
with the challenge value as body only if the supplied verify token equals
the configured secret; otherwise respond `403` with a fixed failure body
that does not depend on the challenge. -/
def verifyWebhook (secret : String) (mode challenge token : String) : HttpResponse :=
  if token == secret then ⟨200, challenge⟩
  else ⟨403, "Verification failed"⟩

/-- Modelled from the spec: §4.2 — the raw `type` discriminators the
classifier recognizes. -/
def knownTypes : List String :=
  ["text", "image", "video", "audio", "document", "sticker",
   "location", "contacts", "interactive", "reaction"]

/-- Modelled from the spec: §4.2 classification — map the raw platform
`type` discriminator to the internal enum; any discriminator not
recognized maps to `unsupported` rather than being rejected. -/
def classifyType (raw : String) : MessageType :=
  if raw == "text" then .text
  else if raw == "image" then .image
  else if raw == "video" then .video
  else if raw == "audio" then .audio
  else if raw == "document" then .document
  else if raw == "sticker" then .sticker
  else if raw == "location" then .location
  else if raw == "contacts" then .contacts
  else if raw == "interactive" then .interactive
  else if raw == "reaction" then .reaction
  else .unsupported

/-- Modelled from the spec: §4.2 — one raw entry of a batch payload, as far
as classification and routing need it: identity metadata, the raw `type`
discriminator and a text body. -/
structure RawEntry where
  id : String
  chat_id : String
  timestamp : Nat
  rawType : String
  body : String
deriving DecidableEq, Repr

/-- Modelled from the spec: §4.2 parse stage — build one Message from one
raw entry; the text payload is populated exactly when the entry classifies
as text. -/
def parseEntry (r : RawEntry) : Message :=
  { id := r.id
    chat_id := r.chat_id
    timestamp := r.timestamp
    type := classifyType r.rawType
    text := if classifyType r.rawType == .text then some ⟨r.body⟩ else none }

/-- Modelled from the spec: §4.4/§6 event delivery — authenticate (fail
closed with 403, body not processed), reject an unparseable body with 400,
otherwise accept with 200 and hand the parsed messages on.  An unparseable
body is represented as `none`, a parseable one as `some` list of raw
entries. -/
def handleEventPost (authOk : Bool) (body : Option (List RawEntry)) :
    Nat × List Message :=
  if authOk then
    match body with
    | none => (400, [])
    | some entries => (200, entries.map parseEntry)
  else (403, [])

/-! ## Deduplication window -/

/-- Modelled from the spec: §3 deduplication window — an in-memory record
of recently seen message ids with a time-bounded retention period, owned
by the Webhook Endpoint.  Each entry remembers the id and the time it was
inserted. -/
structure DedupWindow where
  retention : Nat
  seen : List (String × Nat)
deriving DecidableEq, Repr

/-- Whether `msgId` is present in the window within its retention period
at time `now`. -/
def DedupWindow.containsId (w : DedupWindow) (msgId : String) (now : Nat) : Bool :=
  w.seen.any fun e => e.1 == msgId && now < e.2 + w.retention

/-- Modelled from the spec: §4.4 event delivery steps (c)–(e) — a delivery
whose id is already in the window within retention is dropped before
reaching the Dispatcher; otherwise the id is inserted and the message is
dispatched.  Returns the updated window and whether the Dispatcher was
invoked. -/
def deliverOnce (w : DedupWindow) (msgId : String) (now : Nat) :
    DedupWindow × Bool :=
  if w.containsId msgId now then (w, false)
  else ({ retention := w.retention, seen := (msgId, now) :: w.seen }, true)

/-! ## Bot API client (outbound) -/

/-- Modelled from the spec: §4.5/§7 error taxonomy of outbound Bot calls. -/
inductive BotError where
  | clientValidation (msg : String)
  | network (msg : String)
  | api (code : Nat) (msg : String)
  | notFound (msg : String)
deriving DecidableEq, Repr

/-- The outbound HTTP request a successful Bot call would put on the wire;
`recipient` embeds the `to` argument of the call. -/
structure OutboundRequest where
  recipient : String
  payloadType : String
  payload : String
deriving DecidableEq, Repr

/-- Modelled from the spec: §4.5 send-text — malformed arguments (an empty
required field such as the recipient id, the `to` argument) are caught by
validation before any network call; a validated call produces the outbound
request. -/
def sendText (recipient text : String) : Except BotError OutboundRequest :=
  if recipient = "" then .error (.clientValidation "recipient id must not be empty")
  else .ok { recipient := recipient, payloadType := "text", payload := text }

/-- The network calls a `sendText` invocation attempts: the single request
on success, none when validation failed. -/
def sendTextNetworkCalls (recipient text : String) : List OutboundRequest :=
  match sendText recipient text with
  | .ok r => [r]
  | .error _ => []

/-! ## Embedded fragments of `examples/full_test_bot.py` -/

/-- Python `str.split(maxsplit=1)`: skip leading whitespace, take the first
whitespace-delimited token, then the remainder with its own leading
whitespace stripped; an all-whitespace string yields `[]`.  Embeds the
`message.text.body.split(maxsplit=1)` expression of
`handle_download_command` (full_test_bot.py:442) and
`handle_delete_media_command` (full_test_bot.py:493). -/
def pySplitMax1 (s : String) : List String :=
  let cs := s.data.dropWhile Char.isWhitespace
  match cs with
  | [] => []
  | _ =>
      let tok := cs.takeWhile fun c => !c.isWhitespace
      let rest := (cs.dropWhile fun c => !c.isWhitespace).dropWhile Char.isWhitespace
      match rest with
      | [] => [String.mk tok]
      | _ => [String.mk tok, String.mk rest]

/-- The `parts` computation of `handle_download_command` /
`handle_delete_media_command` (full_test_bot.py:442, 493): dereference the
text payload of the message and split its body.  `none` models the
`AttributeError` the Python code would raise on a message without a text
payload. -/
def commandParts (m : Message) : Option (List String) :=
  m.text.map fun t => pySplitMax1 t.body

/-- Outcome of the `await bot.delete_media(...)` call in
`handle_delete_media_command` (full_test_bot.py:511): returned a boolean,
or raised. -/
inductive DeleteOutcome where
  | ok (success : Bool)
  | raised (msg : String)
deriving DecidableEq, Repr

/-- full_test_bot.py:515 — `keys_to_del = [key for key, value in
last_media_ids.items() if value == media_id_to_delete]`. -/
def keysToDel (cache : List (String × String)) (mediaId : String) : List String :=
  (cache.filter fun e => e.2 == mediaId).map Prod.fst

/-- full_test_bot.py:516-517 — `for key in keys_to_del: del
last_media_ids[key]`, on a cache represented as an association list with
distinct keys (a Python dict). -/
def delKeys (cache : List (String × String)) (keys : List String) :
    List (String × String) :=
  cache.filter fun e => !(keys.contains e.1)

/-- full_test_bot.py:510-522 — the effect of `handle_delete_media_command`
on the `last_media_ids` cache: entries whose value equals the deleted
media id are removed when `delete_media` returned `True`; the cache is
untouched when it returned `False` or raised (the `except` branch does not
touch the cache). -/
def handleDeleteCache (cache : List (String × String)) (mediaId : String)
    (o : DeleteOutcome) : List (String × String) :=
  match o with
  | .ok true => delKeys cache (keysToDel cache mediaId)
  | .ok false => cache
  | .raised _ => cache

/-! ## Example inputs and registries (spec §8 test scenarios) -/

/-- A text message as the Webhook Endpoint constructs it (spec §3): text
payload populated, every other payload absent. -/
def mkTextMsg (mid chat body : String) : Message :=
  { id := mid, chat_id := chat, timestamp := 0, type := .text,
    text := some ⟨body⟩ }

/-- A location message (spec §8 dispatch example). -/
def sampleLocationMsg : Message :=
  { id := "m-loc", chat_id := "c", timestamp := 0, type := .location,
    location := some ⟨34, -118, none, none⟩ }

/-- A reaction message with an absent emoji — "reaction removed"
(spec §4.1 edge case). -/
def sampleBareReactionMsg : Message :=
  { id := "m-react", chat_id := "c", timestamp := 0, type := .reaction,
    reaction := some ⟨none, "wamid.target"⟩ }

/-- Handler H1 of the spec §8 dispatch example: filter `command("a")`. -/
def handlerH1 : MessageHandler :=
  { filter := .command "a", name := "H1", run := fun _ => .ok () }

/-- Handler H2 of the spec §8 dispatch example: filter TEXT. -/
def handlerH2 : MessageHandler :=
  { filter := .typeIs .text, name := "H2", run := fun _ => .ok () }

/-- A handler with the catch-all ALL filter. -/
def handlerAll : MessageHandler :=
  { filter := .all, name := "HALL", run := fun _ => .ok () }

/-- A handler whose callback raises, for the spec §8 batch-failure
scenario. -/
def handlerBoom : MessageHandler :=
  { filter := .command "boom", name := "HB", run := fun _ => .error "boom" }

/-- Handler for the `/download` command registered at
full_test_bot.py:681. -/
def handlerDownload : MessageHandler :=
  { filter := .command "download", name := "download", run := fun _ => .ok () }

/-! ## Helper lemmas -/

/-- Handlers whose filters reject the message are skipped by the registry
scan. -/
theorem findHandler_skip (m : Message) (pre rest : List MessageHandler)
    (hpre : ∀ g ∈ pre, g.filter.evaluate m = false) :
    findHandler (pre ++ rest) m = findHandler rest m := by
  induction pre with
  | nil => rfl
  | cons g pre ih =>
      have hg : g.filter.evaluate m = false := hpre g (by simp)
      simp only [List.cons_append, findHandler]
      rw [List.find?_cons_of_neg _ (by simp [hg])]
      exact ih fun g2 hg2 => hpre g2 (by simp [hg2])

/-- Characterization of the command filter: it accepts exactly the text
messages whose populated text body has the marker-prefixed name as first
token. -/
theorem command_eval_iff (name : String) (m : Message) :
    (Filter.command name).evaluate m = true ↔
      m.type = .text ∧ ∃ t, m.text = some t ∧
        firstToken t.body = some ("/" ++ name) := by
  cases hx : m.text with
  | none => simp [Filter.evaluate, hx]
  | some t => simp [Filter.evaluate, hx, beq_iff_eq]

/-! ## Claims -/

/-- C1: for every message and every ordered handler registry, dispatch
invokes the callback of exactly the first handler (in registration order)
whose filter evaluates true on the message — every earlier handler is
skipped, the scan stops at the match, and the dispatch outcome is exactly
that one callback invocation; if no registered filter evaluates true, no
callback is invoked and the message is dropped. -/
theorem dispatch_first_match (m : Message) (pre post : List MessageHandler)
    (h : MessageHandler) (hs : List MessageHandler)
    (hpre : ∀ g ∈ pre, g.filter.evaluate m = false)
    (hmatch : h.filter.evaluate m = true)
    (hnone : ∀ g ∈ hs, g.filter.evaluate m = false) :
    findHandler (pre ++ h :: post) m = some h ∧
    dispatch (pre ++ h :: post) m = runHandler h m ∧
    dispatch hs m = .dropped := by
  have hfind : findHandler (pre ++ h :: post) m = some h := by
    rw [findHandler_skip m pre _ hpre]
    exact List.find?_cons_of_pos _ hmatch
  refine ⟨hfind, by simp [dispatch, hfind], ?_⟩
  have hn : findHandler hs m = none :=
    List.find?_eq_none.mpr fun g hg => by simp [hnone g hg]
  simp [dispatch, hn]

/-- Witness for C1, the spec §8 scenario: with handlers
[H1 = command("a"), H2 = TEXT] registered in that order, the text message
"/a" dispatches to H1 only, "hello" dispatches to H2 only, and a location
message is dropped. -/
theorem dispatch_first_match_witness :
    dispatch [handlerH1, handlerH2] (mkTextMsg "w1" "c" "/a") = .handled "H1" ∧
    dispatch [handlerH1, handlerH2] (mkTextMsg "w2" "c" "hello") = .handled "H2" ∧
    dispatch [handlerH1, handlerH2] sampleLocationMsg = .dropped := by
  refine ⟨?_, ?_, ?_⟩
  · exact ((dispatch_first_match (mkTextMsg "w1" "c" "/a") [] [handlerH2]
      handlerH1 [] (by simp) (by decide) (by simp)).2.1).trans rfl
  · exact ((dispatch_first_match (mkTextMsg "w2" "c" "hello") [handlerH1] []
      handlerH2 [] (by decide) (by decide) (by simp)).2.1).trans rfl
  · exact (dispatch_first_match sampleLocationMsg [] [] handlerAll
      [handlerH1, handlerH2] (by simp) (by rfl) (by decide)).2.2

/-- C2: for every Message (including partially-populated ones such as a
reaction with an absent emoji) and every Filter built from AND/OR/NOT
composition over leaf tests, evaluation terminates and returns a boolean
— in this embedding `Filter.evaluate` is a total pure function, so the
first conjunct exhibits its boolean value on any message, and composite
nodes reduce to the boolean combination of their children; in particular
a text-shaped filter (TEXT type test, a command filter, ANY_COMMAND)
applied to a non-text message evaluates to false rather than failing. -/
theorem filter_evaluate_total (f g : Filter) (m : Message) (name : String)
    (hm : m.type ≠ .text) :
    (∃ b : Bool, f.evaluate m = b) ∧
    (Filter.and f g).evaluate m = (f.evaluate m && g.evaluate m) ∧
    (Filter.or f g).evaluate m = (f.evaluate m || g.evaluate m) ∧
    (Filter.not f).evaluate m = !(f.evaluate m) ∧
    (Filter.typeIs .text).evaluate m = false ∧
    (Filter.command name).evaluate m = false ∧
    Filter.anyCommand.evaluate m = false := by
  refine ⟨⟨f.evaluate m, rfl⟩, rfl, rfl, rfl, ?_, ?_, ?_⟩ <;>
    simp [Filter.evaluate, hm]

/-- Witness for C2: the composite filter `TEXT & ~ANY_COMMAND` of the
example bots, evaluated on a reaction message with an absent emoji, is a
boolean (false), and every text-shaped leaf rejects that non-text message
without failing. -/
theorem filter_evaluate_total_witness :
    (Filter.and (.typeIs .text) (.not .anyCommand)).evaluate
        sampleBareReactionMsg = false ∧
    (Filter.typeIs .text).evaluate sampleBareReactionMsg = false ∧
    (Filter.command "start").evaluate sampleBareReactionMsg = false ∧
    Filter.anyCommand.evaluate sampleBareReactionMsg = false := by
  have h := filter_evaluate_total (.typeIs .text) (.not .anyCommand)
    sampleBareReactionMsg "start" (by decide)
  exact ⟨by rw [h.2.1, h.2.2.2.2.1]; rfl, h.2.2.2.2.1, h.2.2.2.2.2.1,
    h.2.2.2.2.2.2⟩

/-- C3: the filter `Command("start")` evaluates true on a message exactly
when it is a text message whose populated body has "/start" as its first
whitespace-delimited token (case-sensitive exact match); concretely it
accepts bodies "/start" and "/start extra args", rejects the text message
"hello", and rejects every non-text message. -/
theorem command_start_semantics :
    (∀ m : Message, (Filter.command "start").evaluate m = true ↔
        m.type = .text ∧ ∃ t, m.text = some t ∧
          firstToken t.body = some "/start") ∧
    (∀ m : Message, m.type ≠ .text →
        (Filter.command "start").evaluate m = false) ∧
    (Filter.command "start").evaluate (mkTextMsg "s1" "c" "/start") = true ∧
    (Filter.command "start").evaluate
        (mkTextMsg "s2" "c" "/start extra args") = true ∧
    (Filter.command "start").evaluate (mkTextMsg "s3" "c" "hello") = false := by
  refine ⟨fun m => command_eval_iff "start" m, ?_, by decide, by decide, by decide⟩
  intro m hm
  simp [Filter.evaluate, hm]

/-- Witness for C3: the characterization applied to the concrete text
message "/start extra args" and, for the non-text part, to a location
message. -/
theorem command_start_semantics_witness :
    (Filter.command "start").evaluate
        (mkTextMsg "s2" "c" "/start extra args") = true ∧
    (Filter.command "start").evaluate sampleLocationMsg = false := by
  refine ⟨((command_start_semantics.1 (mkTextMsg "s2" "c" "/start extra args")).mpr
    ⟨rfl, ⟨"/start extra args"⟩, rfl, by rfl⟩), ?_⟩
  exact command_start_semantics.2.1 sampleLocationMsg (by decide)

/-- C9: every message dispatched to a handler whose filter is a Command
filter is a text message with a populated text payload; hence the
unguarded `message.text.body.split(maxsplit=1)` accesses of
`handle_download_command` (full_test_bot.py:442) and
`handle_delete_media_command` (full_test_bot.py:493) never dereference a
missing text payload when reached via dispatch. -/
theorem command_dispatch_text_present (hs : List MessageHandler) (m : Message)
    (h : MessageHandler) (name : String)
    (hfind : findHandler hs m = some h)
    (hcmd : h.filter = Filter.command name) :
    m.type = .text ∧ ∃ t, m.text = some t ∧
      commandParts m = some (pySplitMax1 t.body) := by
  have hfind2 : hs.find? (fun g => g.filter.evaluate m) = some h := hfind
  have hp := List.find?_some hfind2
  simp only [hcmd] at hp
  obtain ⟨hty, t, ht, -⟩ := (command_eval_iff name m).mp hp
  exact ⟨hty, t, ht, by simp [commandParts, ht]⟩

/-- Witness for C9: the `/download` handler of full_test_bot.py:681
receiving the text message "/download mid123": the text payload is
present and the split succeeds. -/
theorem command_dispatch_text_present_witness :
    (mkTextMsg "d1" "c" "/download mid123").type = .text ∧
    ∃ t, (mkTextMsg "d1" "c" "/download mid123").text = some t ∧
      commandParts (mkTextMsg "d1" "c" "/download mid123")
        = some (pySplitMax1 t.body) :=
  command_dispatch_text_present [handlerDownload]
    (mkTextMsg "d1" "c" "/download mid123") handlerDownload "download"
    (by rfl) rfl

/-- C4: an exception raised inside a handler callback is caught at the
dispatch boundary — it becomes the `failed` dispatch outcome, a value, so
nothing propagates to the response path of the Webhook Endpoint — and the
outcome of every message of a batch depends only on that message: position
`i` of the batch result is exactly the independent dispatch of message `i`,
unaffected by a failing handler invocation elsewhere in the batch. -/
theorem batch_failure_isolation (hs : List MessageHandler)
    (msgs : List Message) (i : Nat) (m : Message) (h : MessageHandler)
    (e : String) (hfind : findHandler hs m = some h)
    (herr : h.run m = .error e) :
    (processBatch hs msgs)[i]? = msgs[i]?.map (dispatch hs) ∧
    dispatch hs m = .failed h.name e := by
  refine ⟨by simp [processBatch], ?_⟩
  simp [dispatch, hfind, runHandler, herr]

/-- Witness for C4, the spec §8 scenario: a 3-message batch whose second
message hits a handler that raises; the first and third messages still
invoke their matching handler, and the failure is recorded, not
propagated. -/
theorem batch_failure_isolation_witness :
    processBatch [handlerH1, handlerBoom, handlerH2]
        [mkTextMsg "b1" "c" "/a", mkTextMsg "b2" "c" "/boom",
         mkTextMsg "b3" "c" "/a"]
      = [.handled "H1", .failed "HB" "boom", .handled "H1"] ∧
    dispatch [handlerH1, handlerBoom, handlerH2]
        (mkTextMsg "b2" "c" "/boom") = .failed "HB" "boom" := by
  refine ⟨by rfl, ?_⟩
  exact (batch_failure_isolation [handlerH1, handlerBoom, handlerH2] [] 0
    (mkTextMsg "b2" "c" "/boom") handlerBoom "boom" (by rfl) (by rfl)).2

/-- C5: delivering a payload with an event id twice while the id is inside
the retention period of the deduplication window results in exactly one
Dispatcher invocation — the first delivery (id not yet in the window)
dispatches, the second is dropped before reaching the Dispatcher; after
the retention period has expired, a redelivery of the same id is
dispatched again. -/
theorem dedup_exactly_once (w : DedupWindow) (msgId : String) (t1 t2 : Nat)
    (hfresh : w.containsId msgId t1 = false) (hle : t1 ≤ t2) :
    (deliverOnce w msgId t1).2 = true ∧
    (t2 < t1 + w.retention →
      (deliverOnce (deliverOnce w msgId t1).1 msgId t2).2 = false) ∧
    (t1 + w.retention ≤ t2 →
      (deliverOnce (deliverOnce w msgId t1).1 msgId t2).2 = true) := by
  have hw1 : deliverOnce w msgId t1
      = ({ retention := w.retention, seen := (msgId, t1) :: w.seen }, true) := by
    simp [deliverOnce, hfresh]
  refine ⟨by simp [hw1], ?_, ?_⟩
  · intro hin
    have hc : DedupWindow.containsId
        { retention := w.retention, seen := (msgId, t1) :: w.seen } msgId t2
        = true := by
      simp [DedupWindow.containsId, hin]
    rw [hw1]
    simp [deliverOnce, hc]
  · intro hout
    have hstale : ∀ e ∈ w.seen,
        ¬((e.1 == msgId && decide (t2 < e.2 + w.retention)) = true) := by
      intro e he hcontra
      have h1 := List.any_eq_false.mp hfresh e he
      simp only [Bool.and_eq_true, beq_iff_eq, decide_eq_true_eq] at h1 hcontra
      obtain ⟨hc1, hc2⟩ := hcontra
      exact h1 ⟨hc1, by omega⟩
    have hc : DedupWindow.containsId
        { retention := w.retention, seen := (msgId, t1) :: w.seen } msgId t2
        = false := by
      simp only [DedupWindow.containsId, List.any_cons, Bool.or_eq_false_iff]
      constructor
      · simp only [Bool.and_eq_false_iff]
        right
        simp [decide_eq_false_iff_not]
        omega
      · exact List.any_eq_false.mpr hstale
    rw [hw1]
    simp [deliverOnce, hc]

/-- Witness for C5: an empty window with retention 10 — the id "evt-1" at
time 0 dispatches, its redelivery at time 5 is dropped, and its
redelivery at time 10 (retention expired) dispatches again. -/
theorem dedup_exactly_once_witness :
    (deliverOnce ⟨10, []⟩ "evt-1" 0).2 = true ∧
    (deliverOnce (deliverOnce ⟨10, []⟩ "evt-1" 0).1 "evt-1" 5).2 = false ∧
    (deliverOnce (deliverOnce ⟨10, []⟩ "evt-1" 0).1 "evt-1" 10).2 = true := by
  have h5 := dedup_exactly_once ⟨10, []⟩ "evt-1" 0 5 (by decide) (by decide)
  have h10 := dedup_exactly_once ⟨10, []⟩ "evt-1" 0 10 (by decide) (by decide)
  exact ⟨h5.1, h5.2.1 (by decide), h10.2.2 (by decide)⟩

/-- C6: for every GET verification request, if the caller-supplied verify
token equals the configured secret the endpoint responds 200 with the
challenge value as body; otherwise it responds 403 with a body that is
independent of the challenge value, so the challenge is never echoed on
failure. -/
theorem webhook_verification (secret mode challenge token : String) :
    (token = secret →
      verifyWebhook secret mode challenge token = ⟨200, challenge⟩) ∧
    (token ≠ secret →
      (verifyWebhook secret mode challenge token).status = 403 ∧
      ∀ c2, (verifyWebhook secret mode challenge token).body
          = (verifyWebhook secret mode c2 token).body) := by
  constructor
  · intro h
    simp [verifyWebhook, h]
  · intro h
    refine ⟨?_, fun c2 => ?_⟩ <;> simp [verifyWebhook, h]

/-- Witness for C6, the spec §8 scenario: with secret "secret" and
challenge "1234", the correct token yields status 200 with body "1234";
the wrong token "bad" yields 403 with a body independent of the
challenge. -/
theorem webhook_verification_witness :
    verifyWebhook "secret" "subscribe" "1234" "secret" = ⟨200, "1234"⟩ ∧
    (verifyWebhook "secret" "subscribe" "1234" "bad").status = 403 ∧
    (verifyWebhook "secret" "subscribe" "1234" "bad").body
      = (verifyWebhook "secret" "subscribe" "zzz" "bad").body := by
  have hok := webhook_verification "secret" "subscribe" "1234" "secret"
  have hbad := webhook_verification "secret" "subscribe" "1234" "bad"
  exact ⟨hok.1 rfl, (hbad.2 (by decide)).1, (hbad.2 (by decide)).2 "zzz"⟩

/-- C7: an authenticated, parseable event delivery is accepted with 200
even when it carries raw `type` discriminators the classifier does not
recognize — each such entry is classified as the `unsupported` variant and
processed normally; the endpoint returns 400 exactly for an authenticated
delivery whose body is unparseable. -/
theorem unknown_type_unsupported (entries : List RawEntry) (r : RawEntry)
    (authOk : Bool) (body : Option (List RawEntry))
    (hr : r.rawType ∉ knownTypes) :
    (handleEventPost true (some entries)).1 = 200 ∧
    (handleEventPost true (some entries)).2 = entries.map parseEntry ∧
    (parseEntry r).type = .unsupported ∧
    ((handleEventPost authOk body).1 = 400 ↔ authOk = true ∧ body = none) := by
  simp only [knownTypes, List.mem_cons, List.not_mem_nil, or_false,
    not_or] at hr
  obtain ⟨h1, h2, h3, h4, h5, h6, h7, h8, h9, h10⟩ := hr
  refine ⟨rfl, rfl, ?_, ?_⟩
  · simp [parseEntry, classifyType, h1, h2, h3, h4, h5, h6, h7, h8, h9, h10]
  · cases authOk <;> cases body <;> simp [handleEventPost]

/-- Witness for C7: a raw entry with the unrecognized discriminator
"order" inside an authenticated one-entry batch is classified as
`unsupported` and the delivery is answered with 200, not 400. -/
theorem unknown_type_unsupported_witness :
    (handleEventPost true
        (some [⟨"e1", "c", 0, "order", ""⟩])).1 = 200 ∧
    (parseEntry ⟨"e1", "c", 0, "order", ""⟩).type = .unsupported ∧
    ¬((handleEventPost true
        (some [⟨"e1", "c", 0, "order", ""⟩])).1 = 400 ∧ True) := by
  have h := unknown_type_unsupported [⟨"e1", "c", 0, "order", ""⟩]
    ⟨"e1", "c", 0, "order", ""⟩ true (some [⟨"e1", "c", 0, "order", ""⟩])
    (by decide)
  refine ⟨h.1, h.2.2.1, ?_⟩
  intro hc
  have := h.2.2.2.mp hc.1
  exact Option.noConfusion this.2

/-- C8: a Bot send-text call with an empty recipient id fails with a
client validation error raised by argument validation before any network
call is attempted — the list of outbound network calls of such an
invocation is empty. -/
theorem send_text_empty_recipient (text : String) :
    (∃ msg, sendText "" text = .error (.clientValidation msg)) ∧
    sendTextNetworkCalls "" text = [] :=
  ⟨⟨"recipient id must not be empty", rfl⟩, rfl⟩

/-- C10: the cache update of `handle_delete_media_command`
(full_test_bot.py:510-519) leaves `last_media_ids` unchanged when
`delete_media` returns false or raises, and when `delete_media` returns
true it removes exactly the entries whose value equals the deleted media
id (the cache being a Python dict, its keys are distinct), leaving every
entry that maps to a different media id in place. -/
theorem delete_media_cache_frame (cache : List (String × String))
    (mediaId msg : String) (hnd : (cache.map Prod.fst).Nodup) :
    handleDeleteCache cache mediaId (.ok false) = cache ∧
    handleDeleteCache cache mediaId (.raised msg) = cache ∧
    handleDeleteCache cache mediaId (.ok true)
      = cache.filter (fun e => !(e.2 == mediaId)) := by
  refine ⟨rfl, rfl, ?_⟩
  show delKeys cache (keysToDel cache mediaId)
      = cache.filter (fun e => !(e.2 == mediaId))
  unfold delKeys
  refine List.filter_congr fun e he => ?_
  congr 1
  rcases hval : (e.2 == mediaId) with _ | _
  · rcases hcon : (keysToDel cache mediaId).contains e.1 with _ | _
    · rfl
    · exfalso
      have hmem : e.1 ∈ (cache.filter fun g => g.2 == mediaId).map Prod.fst :=
        List.elem_iff.mp hcon
      obtain ⟨g, hgmem, hgfst⟩ := List.mem_map.mp hmem
      have hgc := List.mem_filter.mp hgmem
      have : g = e := List.inj_on_of_nodup_map hnd hgc.1 he hgfst
      rw [this] at hgc
      rw [hgc.2] at hval
      exact Bool.noConfusion hval
  · have hmem : e.1 ∈ keysToDel cache mediaId := by
      refine List.mem_map.mpr ⟨e, List.mem_filter.mpr ⟨he, hval⟩, rfl⟩
    exact List.elem_iff.mpr hmem

/-- Witness for C10: a two-entry cache where "image_jpg" and "image_png"
both map to media id "m1"; deleting "m1" with success true removes both
entries and leaves the "video" entry (value "m2") untouched; with success
false or a raised error the cache is unchanged. -/
theorem delete_media_cache_frame_witness :
    handleDeleteCache [("image_jpg", "m1"), ("video", "m2"),
        ("image_png", "m1")] "m1" (.ok false)
      = [("image_jpg", "m1"), ("video", "m2"), ("image_png", "m1")] ∧
    handleDeleteCache [("image_jpg", "m1"), ("video", "m2"),
        ("image_png", "m1")] "m1" (.raised "boom")
      = [("image_jpg", "m1"), ("video", "m2"), ("image_png", "m1")] ∧
    handleDeleteCache [("image_jpg", "m1"), ("video", "m2"),
        ("image_png", "m1")] "m1" (.ok true) = [("video", "m2")] := by
  have h := delete_media_cache_frame
    [("image_jpg", "m1"), ("video", "m2"), ("image_png", "m1")] "m1" "boom"
    (by decide)
  exact ⟨h.1, h.2.1, h.2.2.trans (by rfl)⟩

end WaCloud
